import Mathlib

/-!
# Verification of the flytesnacks cookbook examples against their specification

The repository consists of three example scripts that declare Flyte tasks and
workflows.  This development embeds, shallowly:

* the pure task and workflow bodies of `cookbook/core/control_flow/subworkflows.py`
  (`t1`, `leaf_subwf`, `parent_wf`, ...) as Lean functions;
* the structural workflow graphs those scripts declare (node ids fixed with
  `with_overrides(node_name=...)`) together with the sub-workflow Inliner the
  specification describes (§4.2), since the inliner itself lives in the external
  `flytekit` platform and not in this repository;
* the data pipeline of
  `cookbook/case_studies/ml_training/house_price_prediction/house_price_predictor.py`
  (`gen_price`, `gen_houses`, `split_data`, `generate_and_split_data`), with
  the numpy global random stream made an explicit parameter and the
  scikit-learn seeded shuffle abstracted as a permutation-valued parameter;
* the binding resolver of the spec (§4.3), cache layer (§4.5) and failure
  propagation (§4.4), which the examples rely on but do not implement;
* the module-level name environment of
  `cookbook/case_studies/feature_engineering/feast_integration/feast_workflow.py`,
  to settle the claim about its undefined names.
-/

namespace Flytesnacks

/-! ## Pure embedding of `subworkflows.py` task and workflow bodies

Source: `cookbook/core/control_flow/subworkflows.py`.  The task `t1` and the
workflows are plain functions of their inputs; Python tuple destructuring is
rendered with `Prod`. -/

/-- `t1(a) = op(a + 2, "world")` (lines 48–50). -/
def t1 (a : Int) : Int × String := (a + 2, "world")

/-- `leaf_subwf(a=42)`: `x, y = t1(a); u, v = t1(x); return y, v` (lines 56–60). -/
def leaf_subwf (a : Int := 42) : String × String :=
  let xy := t1 a
  let uv := t1 xy.1
  (xy.2, uv.2)

/-- `other_child_wf(a=42)`: `x, y = t1(a); return x, y` (lines 63–66). -/
def other_child_wf (a : Int := 42) : Int × String :=
  t1 a

/-- `parent_wf(a)`: `x, y = t1(a); u, v = leaf_subwf(a=x); return x, u, v`
(lines 82–86). -/
def parent_wf (a : Int) : Int × String × String :=
  let xy := t1 a
  let uv := leaf_subwf xy.1
  (xy.1, uv.1, uv.2)

/-- `other_parent_wf(a)` (lines 89–93). -/
def other_parent_wf (a : Int) : Int × Int × String :=
  let xy := t1 a
  let uv := other_child_wf xy.1
  (xy.1, uv.1, uv.2)

/-- `root_level_wf(a)` (lines 108–112). -/
def root_level_wf (a : Int) : Int × String × String × String :=
  let xy := leaf_subwf a
  let mno := parent_wf a
  (mno.1, mno.2.1, mno.2.2, xy.2)

/-- `other_root_wf(a)` (lines 115–119). -/
def other_root_wf (a : Int) : Int × String × String × Int × Int × String :=
  let xyz := parent_wf a
  let abc := other_parent_wf a
  (xyz.1, xyz.2.1, xyz.2.2, abc.1, abc.2.1, abc.2.2)

/-! ## Structural workflow graphs and the Inliner

The node ids below are exactly the `with_overrides(node_name=...)` strings of
`subworkflows.py`.  The Inliner itself is part of the external platform, so it
is modelled from the spec (§4.2). -/

/-- A declared node body: a task call or a sub-workflow call (by workflow name). -/
inductive NodeBody where
  | taskCall (taskName : String)
  | subwfCall (wfName : String)
  deriving DecidableEq, Repr

/-- A declared node: its (override) id and its body. -/
structure NodeDecl where
  id : String
  body : NodeBody
  deriving DecidableEq, Repr

/-- Whether a declared node is a plain task call (no sub-workflow). -/
def NodeDecl.isTask : NodeDecl → Bool
  | ⟨_, .taskCall _⟩ => true
  | ⟨_, .subwfCall _⟩ => false

/-- The declared node list of a workflow, in lexical order. -/
structure WorkflowSpec where
  name : String
  nodes : List NodeDecl
  deriving DecidableEq, Repr

/-- A node of the flattened Graph: its id is the path of call-site ids
prefixed onto the originally declared id, innermost last. -/
structure FlatNode where
  path : List String
  taskName : String
  deriving DecidableEq, Repr

/-- `leaf_subwf` declares nodes `leafwf-n0`, `leafwf-n1` (lines 57–59). -/
def leaf_subwfSpec : WorkflowSpec :=
  ⟨"leaf_subwf", [⟨"leafwf-n0", .taskCall "t1"⟩, ⟨"leafwf-n1", .taskCall "t1"⟩]⟩

/-- `other_child_wf` declares node `other-child-n0` (lines 64–65). -/
def other_child_wfSpec : WorkflowSpec :=
  ⟨"other_child_wf", [⟨"other-child-n0", .taskCall "t1"⟩]⟩

/-- `parent_wf` declares `parent-n0` (task) and `parent-n1` (sub-workflow
`leaf_subwf`) (lines 83–85). -/
def parent_wfSpec : WorkflowSpec :=
  ⟨"parent_wf", [⟨"parent-n0", .taskCall "t1"⟩, ⟨"parent-n1", .subwfCall "leaf_subwf"⟩]⟩

/-- `other_parent_wf` intentionally reuses the ids `parent-n0`, `parent-n1`
(lines 90–92). -/
def other_parent_wfSpec : WorkflowSpec :=
  ⟨"other_parent_wf",
    [⟨"parent-n0", .taskCall "t1"⟩, ⟨"parent-n1", .subwfCall "other_child_wf"⟩]⟩

/-- `root_level_wf` declares `root-n0` (sub-workflow `leaf_subwf`) and
`root-n1` (sub-workflow `parent_wf`) (lines 109–111). -/
def root_level_wfSpec : WorkflowSpec :=
  ⟨"root_level_wf",
    [⟨"root-n0", .subwfCall "leaf_subwf"⟩, ⟨"root-n1", .subwfCall "parent_wf"⟩]⟩

/-- `other_root_wf` declares `other-root-n0` (sub-workflow `parent_wf`) and
`other-root-n1` (sub-workflow `other_parent_wf`) (lines 116–118). -/
def other_root_wfSpec : WorkflowSpec :=
  ⟨"other_root_wf",
    [⟨"other-root-n0", .subwfCall "parent_wf"⟩,
     ⟨"other-root-n1", .subwfCall "other_parent_wf"⟩]⟩

/-- The workflow registry of the module: every workflow declared in
`subworkflows.py`, keyed by name. -/
def wfRegistry : List (String × WorkflowSpec) :=
  [("leaf_subwf", leaf_subwfSpec), ("other_child_wf", other_child_wfSpec),
   ("parent_wf", parent_wfSpec), ("other_parent_wf", other_parent_wfSpec),
   ("root_level_wf", root_level_wfSpec), ("other_root_wf", other_root_wfSpec)]

/-- Look a workflow up by name in a registry. -/
def lookupReg : List (String × WorkflowSpec) → String → Option WorkflowSpec
  | [], _ => none
  | (k, w) :: rest, n => if k = n then some w else lookupReg rest n

/-- Modelled from the spec (§4.2, the Inliner is part of the external
platform): splice the expansions produced by `expand` (one nesting level
deeper) into a node list, prefixing each inlined node id with the id of the call
site; a task node passes through with its own id. -/
def inlineNodes (expand : String → Except String (List FlatNode)) :
    List NodeDecl → Except String (List FlatNode)
  | [] => .ok []
  | ⟨i, .taskCall t⟩ :: rest => do
      let tail ← inlineNodes expand rest
      .ok (⟨[i], t⟩ :: tail)
  | ⟨i, .subwfCall w⟩ :: rest => do
      let inner ← expand w
      let tail ← inlineNodes expand rest
      .ok (inner.map (fun m => ⟨i :: m.path, m.taskName⟩) ++ tail)

/-- Modelled from the spec (§4.2): expand a sub-workflow call by name,
recursively, with the fuel argument bounding the remaining nesting depth;
exceeding the bound is a `RecursionError`, an unregistered workflow name a
`BindingError`. -/
def expandWf (reg : List (String × WorkflowSpec)) :
    Nat → String → Except String (List FlatNode)
  | 0, _ => .error "RecursionError"
  | d + 1, w =>
      match lookupReg reg w with
      | none => .error "BindingError"
      | some sub => inlineNodes (expandWf reg d) sub.nodes

/-- Modelled from the spec (§4.2): build the flattened Graph of a workflow,
with the default maximum nesting depth 100. -/
def inlineWf (reg : List (String × WorkflowSpec)) (wf : WorkflowSpec) :
    Except String (List FlatNode) :=
  inlineNodes (expandWf reg 100) wf.nodes

/-- The sub-workflow nesting depth of a node list, given a depth oracle for
sub-workflow calls; `none` when an oracle call is undefined. -/
def depthNodes (oracle : String → Option Nat) : List NodeDecl → Option Nat
  | [] => some 0
  | ⟨_, .taskCall _⟩ :: rest => depthNodes oracle rest
  | ⟨_, .subwfCall w⟩ :: rest => do
      let dw ← oracle w
      let dr ← depthNodes oracle rest
      some (max (dw + 1) dr)

/-- The nesting depth of a registered workflow, with the same fuel discipline
as `expandWf`: `none` when the name is unregistered or the fuel runs out. -/
def depthWf (reg : List (String × WorkflowSpec)) : Nat → String → Option Nat
  | 0, _ => none
  | d + 1, w =>
      match lookupReg reg w with
      | none => none
      | some sub => depthNodes (depthWf reg d) sub.nodes

/-- The sub-workflow nesting depth of a workflow against a registry, defined
exactly when every nested reference resolves within the depth bound 100. -/
def wfNestingDepth (reg : List (String × WorkflowSpec)) (wf : WorkflowSpec) :
    Option Nat :=
  depthNodes (depthWf reg 100) wf.nodes

/-- A registry holding one self-referential workflow, for the build-time
rejection property of the spec (§4.2). -/
def selfRefRegistry : List (String × WorkflowSpec) :=
  [("loop_wf", ⟨"loop_wf", [⟨"n0", .subwfCall "loop_wf"⟩]⟩)]

/-- A registry holding two mutually recursive workflows. -/
def mutualRefRegistry : List (String × WorkflowSpec) :=
  [("wf_a", ⟨"wf_a", [⟨"n0", .subwfCall "wf_b"⟩]⟩),
   ("wf_b", ⟨"wf_b", [⟨"n0", .subwfCall "wf_a"⟩]⟩)]

/-! ## The house-price-prediction pipeline

Source: `cookbook/case_studies/ml_training/house_price_prediction/house_price_predictor.py`.
DataFrame cells are rationals.  The numpy global random stream (the source
draws from `np.random` without seeding it) is an explicit stream `rand` of
integer draws, six per house; the seeded shuffle of
`sklearn.model_selection.train_test_split` is an explicit `shuffle` parameter,
assumed (and, for concrete witnesses, instantiated) to be a permutation. -/

/-- A DataFrame: column labels plus rows of rational cells. -/
structure DataFrame where
  cols : List String
  rows : List (List Rat)
  deriving DecidableEq, Repr

/-- `NUM_HOUSES_PER_LOCATION = 1000` (line 36). -/
def NUM_HOUSES_PER_LOCATION : Nat := 1000

/-- `COLUMNS` (lines 37–45). -/
def COLUMNS : List String :=
  ["PRICE", "YEAR_BUILT", "SQUARE_FEET", "NUM_BEDROOMS", "NUM_BATHROOMS",
   "LOT_ACRES", "GARAGE_SPACES"]

/-- `MAX_YEAR = 2021` (line 46). -/
def MAX_YEAR : Int := 2021

/-- `SPLIT_RATIOS = [0.6, 0.3, 0.1]` (line 48), as exact rationals. -/
def SPLIT_RATIOS : List Rat := [6 / 10, 3 / 10, 1 / 10]

/-- Python `int(...)` on a rational: truncation toward zero. -/
def pyInt (q : Rat) : Int := q.num.tdiv q.den

/-- One generated house (the dict built in `gen_houses`, lines 73–80). -/
structure House where
  SQUARE_FEET : Int
  NUM_BEDROOMS : Int
  NUM_BATHROOMS : Rat
  LOT_ACRES : Rat
  GARAGE_SPACES : Int
  YEAR_BUILT : Int
  deriving DecidableEq, Repr

/-- `gen_price(house)` (lines 55–65). -/
def gen_price (house : House) : Int :=
  let base : Int := house.SQUARE_FEET * 150
  pyInt ((base : Rat) + 10000 * (house.NUM_BEDROOMS : Rat)
    + 15000 * house.NUM_BATHROOMS + 15000 * house.LOT_ACRES
    + 15000 * (house.GARAGE_SPACES : Rat)
    - 5000 * ((MAX_YEAR : Rat) - (house.YEAR_BUILT : Rat)))

/-- The house built on iteration `i` of the `gen_houses` loop (lines 73–80):
each iteration consumes six draws from the ambient numpy random stream
(`np.random.normal` and `np.random.randint` are unseeded in the source), here
draws `6*i` through `6*i+5` of the explicit stream `rand`. -/
def genHouse (rand : Nat → Int) (i : Nat) : House :=
  { SQUARE_FEET := rand (6 * i),
    NUM_BEDROOMS := rand (6 * i + 1),
    NUM_BATHROOMS := (rand (6 * i + 2) : Rat) / 2,
    LOT_ACRES := (rand (6 * i + 3) : Rat),
    GARAGE_SPACES := rand (6 * i + 4),
    YEAR_BUILT := min MAX_YEAR (rand (6 * i + 5)) }

/-- `gen_houses(num_houses)` (lines 70–99): one row per house, in the order
`[price, YEAR_BUILT, SQUARE_FEET, NUM_BEDROOMS, NUM_BATHROOMS, LOT_ACRES,
GARAGE_SPACES]`, labelled with `COLUMNS`. -/
def gen_houses (rand : Nat → Int) (num_houses : Nat) : DataFrame :=
  ⟨COLUMNS,
    (List.range num_houses).map (fun i =>
      let h := genHouse rand i
      [(gen_price h : Rat), (h.YEAR_BUILT : Rat), (h.SQUARE_FEET : Rat),
       (h.NUM_BEDROOMS : Rat), h.NUM_BATHROOMS, h.LOT_ACRES,
       (h.GARAGE_SPACES : Rat)])⟩

/-- `ceil(q * n)` as sklearn computes the test-fold size, in exact rational
arithmetic (negative fractions clamp to zero). -/
def ratCeilNat (q : Rat) (n : Nat) : Nat :=
  (q.num.toNat * n + (q.den - 1)) / q.den

/-- A shuffle that rotates the list by the seed: a concrete, deterministic
permutation standing in for the seeded permutation of
`sklearn.utils.check_random_state`. -/
def rotShuffle (seed : Int) (l : List (List Rat × List Rat)) :
    List (List Rat × List Rat) :=
  l.rotate seed.toNat

/-- `split_data(df, seed, split)` (lines 104–149): rows are split into the
target column (`y1`, column 0) and the feature columns (`x1`, columns 1..),
paired, shuffled with the seed and cut into test, then validation and train
folds exactly as the two `train_test_split` calls do, and reassembled with the
target first under the labels `COLUMNS`.  `none` models the `ValueError`
sklearn raises when a fold would be empty. -/
def split_data (shuffle : Int → List (List Rat × List Rat) → List (List Rat × List Rat))
    (df : DataFrame) (seed : Int) (split : List Rat) :
    Option (DataFrame × DataFrame × DataFrame) :=
  let val_size := split.getD 1 0
  let test_size := split.getD 2 0
  let num_samples := df.rows.length
  let xy := df.rows.map (fun r => (r.take 1, r.drop 1))
  let n_test := ratCeilNat test_size num_samples
  if 0 < n_test ∧ n_test < num_samples then
    let sh1 := shuffle seed xy
    let testF := sh1.take n_test
    let rem := sh1.drop n_test
    let n_val := ratCeilNat (val_size / (1 - test_size)) rem.length
    if 0 < n_val ∧ n_val < rem.length then
      let sh2 := shuffle seed rem
      let valF := sh2.take n_val
      let trainF := sh2.drop n_val
      some (⟨COLUMNS, trainF.map (fun p => p.1 ++ p.2)⟩,
            ⟨COLUMNS, valF.map (fun p => p.1 ++ p.2)⟩,
            ⟨COLUMNS, testF.map (fun p => p.1 ++ p.2)⟩)
    else none
  else none

/-- `generate_and_split_data(number_of_houses, seed)` (lines 165–168), with
the ambient random stream and the sklearn shuffle explicit. -/
def generate_and_split_data
    (shuffle : Int → List (List Rat × List Rat) → List (List Rat × List Rat))
    (rand : Nat → Int) (number_of_houses : Nat) (seed : Int) :
    Option (DataFrame × DataFrame × DataFrame) :=
  split_data shuffle (gen_houses rand number_of_houses) seed SPLIT_RATIOS

/-! ## Workflow-input binding resolution

Modelled from the spec (§4.3): the resolver itself is part of the external
platform; the declared defaults below are those of the source workflow
signatures. -/

/-- A declared workflow-level input: its name and optional default value. -/
structure ParamSpec where
  name : String
  defaultVal : Option Int
  deriving DecidableEq, Repr

/-- Association lookup among the supplied invocation arguments. -/
def lookupArg : List (String × Int) → String → Option Int
  | [], _ => none
  | (k, v) :: rest, n => if k = n then some v else lookupArg rest n

/-- Modelled from the spec (§4.3): one workflow input resolves from the
supplied arguments, falling back to the declared default when absent, and
fails with `MissingInputError` when neither exists. -/
def resolveInput (supplied : List (String × Int)) (p : ParamSpec) :
    Except String Int :=
  match lookupArg supplied p.name with
  | some v => .ok v
  | none =>
      match p.defaultVal with
      | some d => .ok d
      | none => .error ("MissingInputError: " ++ p.name)

/-- Modelled from the spec (§4.3): resolve every declared workflow input. -/
def resolveWorkflowInputs (params : List ParamSpec)
    (supplied : List (String × Int)) : Except String (List (String × Int)) :=
  match params with
  | [] => .ok []
  | p :: rest => do
      let v ← resolveInput supplied p
      let tail ← resolveWorkflowInputs rest supplied
      .ok ((p.name, v) :: tail)

/-- `leaf_subwf` declares input `a: int = 42` (line 57). -/
def leaf_subwfParams : List ParamSpec := [⟨"a", some 42⟩]

/-- `house_price_predictor_trainer` declares `seed: int = 7` and
`number_of_houses: int = NUM_HOUSES_PER_LOCATION` (lines 230–231). -/
def house_price_predictor_trainerParams : List ParamSpec :=
  [⟨"seed", some 7⟩, ⟨"number_of_houses", some (NUM_HOUSES_PER_LOCATION : Int)⟩]

/-! ## The Cache Layer

Modelled from the spec (§4.5): the cache is part of the external platform; the
task metadata below is the cache declaration of the source tasks. -/

/-- The cache-relevant metadata of a task declaration. -/
structure TaskMeta where
  name : String
  cache : Bool
  cache_version : String
  deriving DecidableEq, Repr

/-- `@task(cache=True, cache_version="0.1", ...)` on
`generate_and_split_data` (line 165). -/
def generate_and_split_dataMeta : TaskMeta :=
  ⟨"generate_and_split_data", true, "0.1"⟩

/-- `@task(cache_version="1.0", cache=True, ...)` on `fit` (line 176). -/
def fitMeta : TaskMeta := ⟨"fit", true, "1.0"⟩

/-- `@task(cache_version="1.0", cache=True, ...)` on `predict` (line 202). -/
def predictMeta : TaskMeta := ⟨"predict", true, "1.0"⟩

/-- Association lookup in a cache store. -/
def cacheLookup {κ ω : Type} [DecidableEq κ] : List (κ × ω) → κ → Option ω
  | [], _ => none
  | (k, v) :: rest, key => if k = key then some v else cacheLookup rest key

/-- Modelled from the spec (§4.5): dispatch one node backed by task `t` with
resolved inputs `inp` against the cache `store`.  The CacheKey is
(task identity, task version, resolved inputs); a hit returns the stored
outputs without reaching the External Task Invoker, a miss invokes the body
and appends the entry.  The returned `Nat` counts the invoker calls this
dispatch made. -/
def runCached {ι ω : Type} [DecidableEq ι] (t : TaskMeta) (body : ι → ω)
    (inp : ι) (store : List ((String × String × ι) × ω)) :
    ω × List ((String × String × ι) × ω) × Nat :=
  if t.cache then
    match cacheLookup store (t.name, t.cache_version, inp) with
    | some o => (o, store, 0)
    | none =>
        let o := body inp
        (o, store ++ [((t.name, t.cache_version, inp), o)], 1)
  else (body inp, store, 1)

/-! ## The Scheduler and failure propagation

Modelled from the spec (§4.4): per-node terminal states and the rule that a
node whose dependencies did not all succeed is Skipped. -/

/-- Terminal node states of one scheduler run. -/
inductive NodeStatus where
  | succeeded
  | failed
  | skipped
  deriving DecidableEq, Repr

/-- A schedulable node: its id and the ids of the nodes its input bindings
depend on. -/
structure SchedNode where
  id : String
  deps : List String
  deriving DecidableEq, Repr

/-- Association lookup among recorded node states. -/
def statusLookup : List (String × NodeStatus) → String → Option NodeStatus
  | [], _ => none
  | (k, v) :: rest, n => if k = n then some v else statusLookup rest n

/-- Modelled from the spec (§4.4): run the nodes in declaration order (the
deterministic tie-break the spec fixes); a node whose dependencies all
succeeded runs its body (`outcome` tells whether the body succeeds), any
other node is Skipped. -/
def runSched (outcome : String → Bool) (nodes : List SchedNode) :
    List (String × NodeStatus) :=
  nodes.foldl (fun st n =>
    if n.deps.all (fun d => decide (statusLookup st d = some NodeStatus.succeeded)) then
      st ++ [(n.id, if outcome n.id then NodeStatus.succeeded else NodeStatus.failed)]
    else
      st ++ [(n.id, NodeStatus.skipped)]) []

/-- Modelled from the spec (§4.4): the overall run is Failed once any terminal
node is Failed or Skipped, Succeeded only if every node Succeeded. -/
def overallFailed (st : List (String × NodeStatus)) : Bool :=
  st.any (fun p => decide (p.2 ≠ NodeStatus.succeeded))

/-- The dependency graph of `house_price_predictor_trainer` (lines 229–247):
`fit` consumes the train and validation folds of `generate_and_split_data`,
`predict` consumes the model of `fit` and the test fold of
`generate_and_split_data`. -/
def houseTrainerNodes : List SchedNode :=
  [⟨"generate_and_split_data", []⟩,
   ⟨"fit", ["generate_and_split_data"]⟩,
   ⟨"predict", ["generate_and_split_data", "fit"]⟩]

/-! ## The feast_workflow module name environment

Source: `cookbook/case_studies/feature_engineering/feast_integration/feast_workflow.py`.
Python resolves a global name when the statement that mentions it runs; a
`def` statement evaluates its decorator and its signature annotations at
module load time, while the function body runs only on call.  Each module
statement is recorded as the global names it binds and the global names it
evaluates at load time, in source order. -/

/-- One module-level statement: the names it binds and the global names it
evaluates when it runs. -/
structure PyStep where
  binds : List String
  refs : List String
  deriving DecidableEq, Repr

/-- Python builtins visible in every module. -/
def pyBuiltins : List String :=
  ["str", "int", "float", "dict", "print", "__file__", "__name__"]

/-- The module-level statements of `feast_workflow.py`, in order: the imports
(lines 1–32), the module constants (lines 35–49), the helper and the task and
workflow definitions with the names their decorators, annotations and default
values evaluate at load time. -/
def feastModuleSteps : List PyStep :=
  [⟨["os", "datetime", "timedelta", "FlyteContext", "random", "joblib",
     "logging", "typing", "pd", "Entity", "Feature", "FeatureStore",
     "FeatureView", "FileSource", "RepoConfig", "ValueType",
     "online_response", "registry", "FileOfflineStoreConfig",
     "SqliteOnlineStoreConfig", "reference_task", "task", "workflow",
     "Workflow", "SQLite3Config", "SQLite3Task", "JoblibSerializedFile",
     "FlyteFile", "FlyteSchema", "train_test_split", "GaussianNB", "aws",
     "mean_median_imputer", "univariate_selection"], []⟩,
   ⟨["logger"], ["logging", "__file__"]⟩,
   ⟨["FEAST_FEATURES"], []⟩,
   ⟨["DATABASE_URI"], []⟩,
   ⟨["DATA_CLASS"], []⟩,
   ⟨["_build_feature_store"], ["FlyteFile", "str", "FeatureStore"]⟩,
   ⟨["sql_task"], ["SQLite3Task", "FlyteSchema", "SQLite3Config",
     "DATABASE_URI"]⟩,
   ⟨["store_offline"], ["task", "FlyteFile", "FlyteSchema", "_FeatureStore"]⟩,
   ⟨["load_historical_features"], ["task", "FlyteFile", "_FeatureStore",
     "FlyteSchema"]⟩,
   ⟨["train_model"], ["task", "pd", "str", "JoblibSerializedFile"]⟩,
   ⟨["store_online"], ["task", "FlyteFile", "_FeatureStore"]⟩,
   ⟨["retrieve_online"], ["task", "FlyteFile", "pd", "_FeatureStore",
     "dict"]⟩,
   ⟨["test_model"], ["task", "JoblibSerializedFile", "dict", "typing"]⟩,
   ⟨["convert_timestamp_column"], ["task", "FlyteSchema", "str"]⟩,
   ⟨["feast_workflow"], ["workflow", "str", "int", "FlyteFile", "typing"]⟩]

/-- The global names the `feast_workflow` body evaluates when called, in
source order (lines 218–258). -/
def feast_workflowBodyRefs : List String :=
  ["sql_task", "mean_median_imputer", "convert_timestamp_column",
   "FeatureStoreConfig", "_FeatureStore", "store_offline", "create_node",
   "load_historical_features", "univariate_selection", "DATA_CLASS",
   "train_model", "store_online", "retrieve_online", "test_model"]

/-- The first name of `refs` that neither the environment nor the builtins
define. -/
def firstUnresolved (env : List String) (refs : List String) : Option String :=
  refs.find? (fun n => !(env.contains n || pyBuiltins.contains n))

/-- Run the module statements in order, growing the environment; the first
statement that evaluates an undefined global raises `NameError`. -/
def loadModule : List PyStep → List String → Except String (List String)
  | [], env => .ok env
  | step :: rest, env =>
      match firstUnresolved env step.refs with
      | some n => .error ("NameError: name " ++ n ++ " is not defined")
      | none => loadModule rest (env ++ step.binds)

/-- Loading `feast_workflow.py` from an empty environment. -/
def loadFeastModule : Except String (List String) :=
  loadModule feastModuleSteps []

/-- Every name `feast_workflow.py` ever binds at module level. -/
def feastModuleBinds : List String :=
  (feastModuleSteps.map PyStep.binds).flatten

/-- Calling `feast_workflow` in an environment: the body runs and the first
undefined global it evaluates raises `NameError`; only if every name resolves
could the promised prediction list be produced. -/
def callFeastWorkflow (env : List String) : Except String String :=
  match firstUnresolved env feast_workflowBodyRefs with
  | some n => .error ("NameError: name " ++ n ++ " is not defined")
  | none => .ok "predictions"

/-! ## Helper lemmas -/

theorem exceptBind_ok_iff {ε α β : Type} {x : Except ε α} {f : α → Except ε β}
    {b : β} : x >>= f = .ok b ↔ ∃ a, x = .ok a ∧ f a = .ok b := by
  cases x with
  | error e => simp [Bind.bind, Except.bind]
  | ok a => simp [Bind.bind, Except.bind]

theorem inlineNodes_nil_ok {expand : String → Except String (List FlatNode)} :
    inlineNodes expand [] = .ok [] := rfl

theorem inlineNodes_task_ok_iff {expand : String → Except String (List FlatNode)}
    {i t : String} {rest : List NodeDecl} {r : List FlatNode} :
    inlineNodes expand (⟨i, .taskCall t⟩ :: rest) = .ok r ↔
      ∃ tail, inlineNodes expand rest = .ok tail ∧ r = ⟨[i], t⟩ :: tail := by
  simp only [inlineNodes, exceptBind_ok_iff]
  constructor
  · rintro ⟨tail, htail, hr⟩
    exact ⟨tail, htail, (Except.ok.injEq _ _ ▸ hr).symm⟩
  · rintro ⟨tail, htail, hr⟩
    exact ⟨tail, htail, by rw [hr]⟩

theorem inlineNodes_subwf_ok_iff {expand : String → Except String (List FlatNode)}
    {i w : String} {rest : List NodeDecl} {r : List FlatNode} :
    inlineNodes expand (⟨i, .subwfCall w⟩ :: rest) = .ok r ↔
      ∃ inner tail, expand w = .ok inner ∧ inlineNodes expand rest = .ok tail ∧
        r = inner.map (fun m => ⟨i :: m.path, m.taskName⟩) ++ tail := by
  simp only [inlineNodes, exceptBind_ok_iff]
  constructor
  · rintro ⟨inner, hinner, tail, htail, hr⟩
    exact ⟨inner, tail, hinner, htail, (Except.ok.injEq _ _ ▸ hr).symm⟩
  · rintro ⟨inner, tail, hinner, htail, hr⟩
    exact ⟨inner, hinner, tail, htail, by rw [hr]⟩

theorem inlineNodes_mem_head {expand : String → Except String (List FlatNode)} :
    ∀ {l : List NodeDecl} {r : List FlatNode}, inlineNodes expand l = .ok r →
      ∀ m ∈ r, ∃ n ∈ l, m.path.head? = some n.id := by
  intro l
  induction l with
  | nil =>
      intro r h m hm
      rw [inlineNodes_nil_ok, Except.ok.injEq] at h
      subst h
      simp at hm
  | cons n rest ih =>
      intro r h m hm
      obtain ⟨i, b⟩ := n
      cases b with
      | taskCall t =>
          obtain ⟨tail, htail, hr⟩ := inlineNodes_task_ok_iff.mp h
          subst hr
          rcases List.mem_cons.mp hm with hm | hm
          · exact ⟨⟨i, .taskCall t⟩, List.mem_cons_self _ _, by simp [hm]⟩
          · obtain ⟨n', hn', hh⟩ := ih htail m hm
            exact ⟨n', List.mem_cons_of_mem _ hn', hh⟩
      | subwfCall w =>
          obtain ⟨inner, tail, hinner, htail, hr⟩ := inlineNodes_subwf_ok_iff.mp h
          subst hr
          rcases List.mem_append.mp hm with hm | hm
          · obtain ⟨m', _, hm'⟩ := List.mem_map.mp hm
            exact ⟨⟨i, .subwfCall w⟩, List.mem_cons_self _ _, by simp [← hm']⟩
          · obtain ⟨n', hn', hh⟩ := ih htail m hm
            exact ⟨n', List.mem_cons_of_mem _ hn', hh⟩

theorem inlineNodes_nodup {expand : String → Except String (List FlatNode)}
    (hex : ∀ w inner, expand w = .ok inner → (inner.map FlatNode.path).Nodup) :
    ∀ {l : List NodeDecl} {r : List FlatNode},
      (l.map NodeDecl.id).Nodup → inlineNodes expand l = .ok r →
      (r.map FlatNode.path).Nodup := by
  intro l
  induction l with
  | nil =>
      intro r _ h
      rw [inlineNodes_nil_ok, Except.ok.injEq] at h
      subst h
      simp
  | cons n rest ih =>
      intro r hl h
      obtain ⟨i, b⟩ := n
      simp only [List.map_cons, List.nodup_cons] at hl
      obtain ⟨hi, hrest⟩ := hl
      cases b with
      | taskCall t =>
          obtain ⟨tail, htail, hr⟩ := inlineNodes_task_ok_iff.mp h
          subst hr
          simp only [List.map_cons, List.nodup_cons]
          refine ⟨?_, ih hrest htail⟩
          intro hmem
          obtain ⟨m, hm, hmp⟩ := List.mem_map.mp hmem
          obtain ⟨n', hn', hh⟩ := inlineNodes_mem_head htail m hm
          rw [hmp] at hh
          simp only [List.head?_cons, Option.some.injEq] at hh
          refine hi ?_
          rw [hh]
          exact List.mem_map_of_mem NodeDecl.id hn'
      | subwfCall w =>
          obtain ⟨inner, tail, hinner, htail, hr⟩ := inlineNodes_subwf_ok_iff.mp h
          subst hr
          have hmaps : (inner.map (fun m => (⟨i :: m.path, m.taskName⟩ : FlatNode))).map
              FlatNode.path = (inner.map FlatNode.path).map (fun p => i :: p) := by
            simp [List.map_map, Function.comp]
          rw [List.map_append, hmaps]
          refine List.Nodup.append ?_ (ih hrest htail) ?_
          · exact (hex w inner hinner).map (fun p q hpq => (List.cons.injEq _ _ _ _ ▸ hpq).2)
          · intro p hp hp'
            obtain ⟨q, _, hq⟩ := List.mem_map.mp hp
            obtain ⟨m', hm', hmp'⟩ := List.mem_map.mp hp'
            obtain ⟨n', hn', hh⟩ := inlineNodes_mem_head htail m' hm'
            rw [hmp', ← hq] at hh
            simp only [List.head?_cons, Option.some.injEq] at hh
            refine hi ?_
            rw [hh]
            exact List.mem_map_of_mem NodeDecl.id hn'

theorem lookupReg_mem {reg : List (String × WorkflowSpec)} {w : String}
    {sub : WorkflowSpec} : lookupReg reg w = some sub → (w, sub) ∈ reg := by
  induction reg with
  | nil => intro h; simp [lookupReg] at h
  | cons p rest ih =>
      intro h
      obtain ⟨k, spec⟩ := p
      by_cases hk : k = w
      · subst hk
        rw [lookupReg, if_pos rfl, Option.some.injEq] at h
        subst h
        exact List.mem_cons_self _ _
      · rw [lookupReg, if_neg hk] at h
        exact List.mem_cons_of_mem _ (ih h)

theorem expandWf_nodup {reg : List (String × WorkflowSpec)}
    (hreg : ∀ p ∈ reg, ((p.2.nodes.map NodeDecl.id).Nodup)) :
    ∀ (d : Nat) (w : String) (inner : List FlatNode),
      expandWf reg d w = .ok inner → (inner.map FlatNode.path).Nodup := by
  intro d
  induction d with
  | zero => intro w inner h; simp [expandWf] at h
  | succ d ih =>
      intro w inner h
      rw [expandWf] at h
      cases hr : lookupReg reg w with
      | none => rw [hr] at h; simp at h
      | some sub =>
          rw [hr] at h
          exact inlineNodes_nodup (fun w' i' h' => ih w' i' h')
            (hreg (w, sub) (lookupReg_mem hr)) h

theorem inlineNodes_length_of_tasks {expand : String → Except String (List FlatNode)} :
    ∀ {l : List NodeDecl} {r : List FlatNode},
      (∀ n ∈ l, ∃ t, n.body = NodeBody.taskCall t) →
      inlineNodes expand l = .ok r → r.length = l.length := by
  intro l
  induction l with
  | nil =>
      intro r _ h
      rw [inlineNodes_nil_ok, Except.ok.injEq] at h
      subst h
      rfl
  | cons n rest ih =>
      intro r hl h
      obtain ⟨i, b⟩ := n
      obtain ⟨t, hb⟩ := hl _ (List.mem_cons_self _ _)
      simp only at hb
      subst hb
      obtain ⟨tail, htail, hr⟩ := inlineNodes_task_ok_iff.mp h
      subst hr
      simp [ih (fun n hn => hl n (List.mem_cons_of_mem _ hn)) htail]

theorem inlineNodes_append_ok_iff {expand : String → Except String (List FlatNode)} :
    ∀ {l1 l2 : List NodeDecl} {r : List FlatNode},
      inlineNodes expand (l1 ++ l2) = .ok r ↔
        ∃ r1 r2, inlineNodes expand l1 = .ok r1 ∧ inlineNodes expand l2 = .ok r2 ∧
          r = r1 ++ r2 := by
  intro l1
  induction l1 with
  | nil =>
      intro l2 r
      simp [inlineNodes_nil_ok]
  | cons n rest ih =>
      intro l2 r
      obtain ⟨i, b⟩ := n
      cases b with
      | taskCall t =>
          rw [List.cons_append]
          constructor
          · intro h
            obtain ⟨tail, htail, hr⟩ := inlineNodes_task_ok_iff.mp h
            obtain ⟨r1, r2, h1, h2, h12⟩ := ih.mp htail
            refine ⟨⟨[i], t⟩ :: r1, r2, inlineNodes_task_ok_iff.mpr ⟨r1, h1, rfl⟩, h2, ?_⟩
            rw [hr, h12, List.cons_append]
          · rintro ⟨r1, r2, h1, h2, h12⟩
            obtain ⟨tail, htail, hr⟩ := inlineNodes_task_ok_iff.mp h1
            refine inlineNodes_task_ok_iff.mpr ⟨tail ++ r2, ih.mpr ⟨tail, r2, htail, h2, rfl⟩, ?_⟩
            rw [h12, hr, List.cons_append]
      | subwfCall w =>
          rw [List.cons_append]
          constructor
          · intro h
            obtain ⟨inner, tail, hinner, htail, hr⟩ := inlineNodes_subwf_ok_iff.mp h
            obtain ⟨r1, r2, h1, h2, h12⟩ := ih.mp htail
            refine ⟨inner.map (fun m => ⟨i :: m.path, m.taskName⟩) ++ r1, r2,
              inlineNodes_subwf_ok_iff.mpr ⟨inner, r1, hinner, h1, rfl⟩, h2, ?_⟩
            rw [hr, h12, List.append_assoc]
          · rintro ⟨r1, r2, h1, h2, h12⟩
            obtain ⟨inner, tail, hinner, htail, hr⟩ := inlineNodes_subwf_ok_iff.mp h1
            refine inlineNodes_subwf_ok_iff.mpr ⟨inner, tail ++ r2,
              hinner, ih.mpr ⟨tail, r2, htail, h2, rfl⟩, ?_⟩
            rw [h12, hr, List.append_assoc]

theorem depthNodes_isSome_imp {reg : List (String × WorkflowSpec)} :
    ∀ (d : Nat) (l : List NodeDecl), (depthNodes (depthWf reg d) l).isSome →
      ∃ r, inlineNodes (expandWf reg d) l = .ok r := by
  intro d
  induction d with
  | zero =>
      intro l
      induction l with
      | nil => intro _; exact ⟨[], rfl⟩
      | cons n rest ih =>
          intro h
          obtain ⟨i, b⟩ := n
          cases b with
          | taskCall t =>
              rw [depthNodes] at h
              obtain ⟨tail, htail⟩ := ih h
              exact ⟨_, inlineNodes_task_ok_iff.mpr ⟨tail, htail, rfl⟩⟩
          | subwfCall w =>
              rw [depthNodes] at h
              simp [depthWf, Option.bind] at h
  | succ d ihd =>
      intro l
      induction l with
      | nil => intro _; exact ⟨[], rfl⟩
      | cons n rest ih =>
          intro h
          obtain ⟨i, b⟩ := n
          cases b with
          | taskCall t =>
              rw [depthNodes] at h
              obtain ⟨tail, htail⟩ := ih h
              exact ⟨_, inlineNodes_task_ok_iff.mpr ⟨tail, htail, rfl⟩⟩
          | subwfCall w =>
              rw [depthNodes] at h
              cases hw : depthWf reg (d + 1) w with
              | none => rw [hw] at h; simp [Option.bind] at h
              | some dw =>
                  rw [hw] at h
                  cases hrest : depthNodes (depthWf reg (d + 1)) rest with
                  | none => rw [hrest] at h; simp [Option.bind] at h
                  | some dr =>
                      obtain ⟨tail, htail⟩ := ih (by rw [hrest]; rfl)
                      rw [depthWf] at hw
                      cases hlk : lookupReg reg w with
                      | none => rw [hlk] at hw; simp at hw
                      | some sub =>
                          rw [hlk] at hw
                          change depthNodes (depthWf reg d) sub.nodes = some dw at hw
                          obtain ⟨inner, hinner⟩ := ihd sub.nodes (by rw [hw]; rfl)
                          refine ⟨_, inlineNodes_subwf_ok_iff.mpr ⟨inner, tail, ?_, htail, rfl⟩⟩
                          rw [expandWf, hlk]
                          exact hinner

theorem exceptBind_error_iff {ε α β : Type} {x : Except ε α} {f : α → Except ε β}
    {e : ε} : x >>= f = .error e ↔
      x = .error e ∨ ∃ a, x = .ok a ∧ f a = .error e := by
  cases x with
  | error e' => simp [Bind.bind, Except.bind]
  | ok a => simp [Bind.bind, Except.bind]

theorem resolveWorkflowInputs_error_iff (params : List ParamSpec)
    (supplied : List (String × Int)) :
    (∃ e, resolveWorkflowInputs params supplied = .error e) ↔
      ∃ p ∈ params, p.defaultVal = none ∧ lookupArg supplied p.name = none := by
  induction params with
  | nil => simp [resolveWorkflowInputs]
  | cons p rest ih =>
      constructor
      · rintro ⟨e, he⟩
        rw [resolveWorkflowInputs] at he
        rcases exceptBind_error_iff.mp he with hx | ⟨v, _, hrest⟩
        · rw [resolveInput] at hx
          cases hp : lookupArg supplied p.name with
          | some v => rw [hp] at hx; simp at hx
          | none =>
              rw [hp] at hx
              cases hd : p.defaultVal with
              | some dv => rw [hd] at hx; simp at hx
              | none => exact ⟨p, List.mem_cons_self _ _, hd, hp⟩
        · rcases exceptBind_error_iff.mp hrest with hy | ⟨tail, _, habs⟩
          · obtain ⟨q, hq, h1, h2⟩ := ih.mp ⟨e, hy⟩
            exact ⟨q, List.mem_cons_of_mem _ hq, h1, h2⟩
          · simp at habs
      · rintro ⟨q, hq, h1, h2⟩
        rw [resolveWorkflowInputs]
        cases hri : resolveInput supplied p with
        | error e' => exact ⟨e', exceptBind_error_iff.mpr (Or.inl rfl)⟩
        | ok v =>
            rcases List.mem_cons.mp hq with hq' | hq'
            · subst hq'
              rw [resolveInput, h2, h1] at hri
              simp at hri
            · obtain ⟨e, he⟩ := ih.mpr ⟨q, hq', h1, h2⟩
              exact ⟨e, exceptBind_error_iff.mpr (Or.inr ⟨v, rfl,
                exceptBind_error_iff.mpr (Or.inl he)⟩)⟩

/-! ## Claim theorems -/

/-- C1: `t1` maps every integer `a` to the pair `(a + 2, "world")`; `parent_wf`
feeds the first output of `t1` into `leaf_subwf`, which applies `t1` twice and
returns the two string outputs; invoking with `a = 3` yields
`("world", "world")` from the sub-workflow, and `parent_wf 3 =
(5, "world", "world")`.  All functions involved are pure, so repeated runs
agree by definitional equality. -/
theorem C1_t1_and_subworkflow_composition :
    (∀ a : Int, t1 a = (a + 2, "world")) ∧
    (∀ a : Int, leaf_subwf a = ((t1 a).2, (t1 (t1 a).1).2)) ∧
    (∀ a : Int, parent_wf a =
      ((t1 a).1, (leaf_subwf (t1 a).1).1, (leaf_subwf (t1 a).1).2)) ∧
    leaf_subwf (t1 3).1 = ("world", "world") ∧
    parent_wf 3 = (5, "world", "world") :=
  ⟨fun _ => rfl, fun _ => rfl, fun _ => rfl, rfl, by decide⟩

set_option maxRecDepth 8000 in
unseal Rat.add Rat.mul Rat.sub Rat.inv in
/-- C2 counterexample: two runs of `generate_and_split_data` with identical
inputs (`number_of_houses = 10`, `seed = 7`) but different ambient numpy
random streams produce different outputs, because `gen_houses` draws from the
unseeded global stream; so identical invocation inputs do not guarantee
byte-identical outputs. -/
theorem C2_counterexample_rng_dependence :
    generate_and_split_data rotShuffle (fun _ => 2000) 10 7 ≠
      generate_and_split_data rotShuffle (fun _ => 2800) 10 7 := by
  have h1 : generate_and_split_data rotShuffle (fun _ => 2000) 10 7 =
      some (⟨COLUMNS, List.replicate 6 [95195000, 2000, 2000, 2000, 1000, 2000, 2000]⟩,
            ⟨COLUMNS, List.replicate 3 [95195000, 2000, 2000, 2000, 1000, 2000, 2000]⟩,
            ⟨COLUMNS, List.replicate 1 [95195000, 2000, 2000, 2000, 1000, 2000, 2000]⟩) := rfl
  have h2 : generate_and_split_data rotShuffle (fun _ => 2800) 10 7 =
      some (⟨COLUMNS, List.replicate 6 [133420000, 2021, 2800, 2800, 1400, 2800, 2800]⟩,
            ⟨COLUMNS, List.replicate 3 [133420000, 2021, 2800, 2800, 1400, 2800, 2800]⟩,
            ⟨COLUMNS, List.replicate 1 [133420000, 2021, 2800, 2800, 1400, 2800, 2800]⟩) := rfl
  rw [h1, h2]
  decide

/-- C2 (amended): the outputs of `generate_and_split_data` are a deterministic
function of the invocation inputs together with the random draws the task body
consumes — runs agreeing on the `6 * number_of_houses` consumed draws of the
ambient stream produce identical outputs. -/
theorem C2_determinism_given_identical_rng
    (shuffle : Int → List (List Rat × List Rat) → List (List Rat × List Rat))
    (rand rand' : Nat → Int) (number_of_houses : Nat) (seed : Int)
    (h : ∀ i, i < 6 * number_of_houses → rand i = rand' i) :
    generate_and_split_data shuffle rand number_of_houses seed =
      generate_and_split_data shuffle rand' number_of_houses seed := by
  unfold generate_and_split_data
  have hg : gen_houses rand number_of_houses = gen_houses rand' number_of_houses := by
    unfold gen_houses
    refine congrArg _ ?_
    refine List.map_congr_left ?_
    intro i hi
    have hin : i < number_of_houses := List.mem_range.mp hi
    have hH : genHouse rand i = genHouse rand' i := by
      unfold genHouse
      rw [h (6 * i) (by omega), h (6 * i + 1) (by omega), h (6 * i + 2) (by omega),
        h (6 * i + 3) (by omega), h (6 * i + 4) (by omega), h (6 * i + 5) (by omega)]
    rw [hH]
  rw [hg]

/-- C2 witness: the amended determinism theorem applied to two runs drawing
the same stream. -/
theorem C2_determinism_witness :
    (∀ i : Nat, i < 6 * 10 → (fun _ => (2000 : Int)) i = (fun _ => (2000 : Int)) i) ∧
    generate_and_split_data rotShuffle (fun _ => 2000) 10 7 =
      generate_and_split_data rotShuffle (fun _ => 2000) 10 7 :=
  ⟨fun _ _ => rfl, C2_determinism_given_identical_rng rotShuffle
    (fun _ => 2000) (fun _ => 2000) 10 7 (fun _ _ => rfl)⟩

/-- C3: `parent_wf` and `other_parent_wf` both declare the node ids
`parent-n0`, `parent-n1`; inlining `other_root_wf` (whose call sites carry the
explicit override names `other-root-n0` and `other-root-n1`) prefixes each
inlined node id with the id of its call site, and the resulting flattened node
ids are pairwise distinct; in general the prefixing policy keeps node ids
unique within every flattened Graph whose registry and caller declare unique
ids. -/
theorem C3_inlined_node_ids_unique :
    parent_wfSpec.nodes.map NodeDecl.id = ["parent-n0", "parent-n1"] ∧
    other_parent_wfSpec.nodes.map NodeDecl.id = ["parent-n0", "parent-n1"] ∧
    inlineWf wfRegistry other_root_wfSpec = .ok
      [⟨["other-root-n0", "parent-n0"], "t1"⟩,
       ⟨["other-root-n0", "parent-n1", "leafwf-n0"], "t1"⟩,
       ⟨["other-root-n0", "parent-n1", "leafwf-n1"], "t1"⟩,
       ⟨["other-root-n1", "parent-n0"], "t1"⟩,
       ⟨["other-root-n1", "parent-n1", "other-child-n0"], "t1"⟩] ∧
    ([["other-root-n0", "parent-n0"], ["other-root-n0", "parent-n1", "leafwf-n0"],
      ["other-root-n0", "parent-n1", "leafwf-n1"], ["other-root-n1", "parent-n0"],
      ["other-root-n1", "parent-n1", "other-child-n0"]] : List (List String)).Nodup ∧
    (∀ (reg : List (String × WorkflowSpec)) (wf : WorkflowSpec) (flat : List FlatNode),
      (∀ p ∈ reg, ((p.2 : WorkflowSpec).nodes.map NodeDecl.id).Nodup) →
      (wf.nodes.map NodeDecl.id).Nodup → inlineWf reg wf = .ok flat →
      (flat.map FlatNode.path).Nodup) := by
  refine ⟨rfl, rfl, rfl, by decide, ?_⟩
  intro reg wf flat hreg hwf h
  exact inlineNodes_nodup (fun w' i' h' => expandWf_nodup hreg 100 w' i' h') hwf h

/-- C3 witness: the uniqueness statement applied to the flattened
`other_root_wf` Graph. -/
theorem C3_inlined_node_ids_unique_witness :
    (([⟨["other-root-n0", "parent-n0"], "t1"⟩,
       ⟨["other-root-n0", "parent-n1", "leafwf-n0"], "t1"⟩,
       ⟨["other-root-n0", "parent-n1", "leafwf-n1"], "t1"⟩,
       ⟨["other-root-n1", "parent-n0"], "t1"⟩,
       ⟨["other-root-n1", "parent-n1", "other-child-n0"], "t1"⟩] :
      List FlatNode).map FlatNode.path).Nodup :=
  C3_inlined_node_ids_unique.2.2.2.2 wfRegistry other_root_wfSpec _
    (by decide) (by decide) rfl

/-- C4: inlining a sub-workflow that itself contains no further sub-workflows
produces a flat Graph whose node count is the count of the caller without the
call-site node plus the sub-workflow count; in particular inlining
`leaf_subwf` (2 nodes) into `parent_wf` (1 task node plus the call site)
yields exactly 3 nodes. -/
theorem C4_inline_flat_node_count :
    (∀ (reg : List (String × WorkflowSpec)) (d : Nat) (caller sub : WorkflowSpec)
      (pre post : List NodeDecl) (i w : String) (flat : List FlatNode),
      caller.nodes = pre ++ ⟨i, .subwfCall w⟩ :: post →
      pre.all NodeDecl.isTask = true →
      post.all NodeDecl.isTask = true →
      lookupReg reg w = some sub →
      sub.nodes.all NodeDecl.isTask = true →
      inlineNodes (expandWf reg (d + 1)) caller.nodes = .ok flat →
      flat.length = (caller.nodes.length - 1) + sub.nodes.length) ∧
    inlineWf wfRegistry parent_wfSpec = .ok
      [⟨["parent-n0"], "t1"⟩, ⟨["parent-n1", "leafwf-n0"], "t1"⟩,
       ⟨["parent-n1", "leafwf-n1"], "t1"⟩] ∧
    parent_wfSpec.nodes.length = 2 ∧ leaf_subwfSpec.nodes.length = 2 ∧
    ([⟨["parent-n0"], "t1"⟩, ⟨["parent-n1", "leafwf-n0"], "t1"⟩,
      ⟨["parent-n1", "leafwf-n1"], "t1"⟩] : List FlatNode).length = (2 - 1) + 2 := by
  refine ⟨?_, rfl, rfl, rfl, rfl⟩
  intro reg d caller sub pre post i w flat hc hpre hpost hlk hsub h
  have taskOf : ∀ (l : List NodeDecl), l.all NodeDecl.isTask = true →
      ∀ n ∈ l, ∃ t, n.body = NodeBody.taskCall t := by
    intro l hl n hn
    have hb := List.all_eq_true.mp hl n hn
    obtain ⟨i0, b0⟩ := n
    cases b0 with
    | taskCall t => exact ⟨t, rfl⟩
    | subwfCall w0 => simp [NodeDecl.isTask] at hb
  rw [hc] at h
  obtain ⟨r1, r2, h1, h2, h12⟩ := inlineNodes_append_ok_iff.mp h
  obtain ⟨inner, tail, hinner, htail, hr2⟩ := inlineNodes_subwf_ok_iff.mp h2
  rw [expandWf] at hinner
  rw [hlk] at hinner
  change inlineNodes (expandWf reg d) sub.nodes = .ok inner at hinner
  have e1 : r1.length = pre.length := inlineNodes_length_of_tasks (taskOf pre hpre) h1
  have e2 : inner.length = sub.nodes.length :=
    inlineNodes_length_of_tasks (taskOf sub.nodes hsub) hinner
  have e3 : tail.length = post.length := inlineNodes_length_of_tasks (taskOf post hpost) htail
  have e4 : caller.nodes.length = pre.length + 1 + post.length := by
    rw [hc]
    simp [List.length_append]
    omega
  rw [h12, hr2]
  simp only [List.length_append, List.length_map]
  omega

/-- C4 witness: the count formula applied to inlining `leaf_subwf` into
`parent_wf`. -/
theorem C4_inline_flat_node_count_witness :
    ([⟨["parent-n0"], "t1"⟩, ⟨["parent-n1", "leafwf-n0"], "t1"⟩,
      ⟨["parent-n1", "leafwf-n1"], "t1"⟩] : List FlatNode).length =
      (parent_wfSpec.nodes.length - 1) + leaf_subwfSpec.nodes.length :=
  C4_inline_flat_node_count.1 wfRegistry 99 parent_wfSpec leaf_subwfSpec
    [⟨"parent-n0", .taskCall "t1"⟩] [] "parent-n1" "leaf_subwf" _
    rfl (by decide) (by decide) (by decide) (by decide) rfl

/-- C5: an absent workflow-level input resolves to the declared default —
`leaf_subwf` with no argument resolves like `a = 42`, the house trainer with
no arguments like `seed = 7, number_of_houses = 1000` — and a
`MissingInputError` arises exactly when some declared input has no default
and no supplied value. -/
theorem C5_workflow_input_defaults :
    resolveWorkflowInputs leaf_subwfParams [] = .ok [("a", 42)] ∧
    resolveWorkflowInputs leaf_subwfParams [] =
      resolveWorkflowInputs leaf_subwfParams [("a", 42)] ∧
    resolveWorkflowInputs house_price_predictor_trainerParams [] =
      .ok [("seed", 7), ("number_of_houses", 1000)] ∧
    resolveWorkflowInputs house_price_predictor_trainerParams [] =
      resolveWorkflowInputs house_price_predictor_trainerParams
        [("seed", 7), ("number_of_houses", 1000)] ∧
    (∀ (params : List ParamSpec) (supplied : List (String × Int)),
      (∃ e, resolveWorkflowInputs params supplied = .error e) ↔
        ∃ p ∈ params, p.defaultVal = none ∧ lookupArg supplied p.name = none) :=
  ⟨rfl, rfl, rfl, rfl, resolveWorkflowInputs_error_iff⟩

/-- C5 witness: a required input with no default and no supplied value is the
exact condition producing a `MissingInputError`. -/
theorem C5_workflow_input_defaults_witness :
    ∃ e, resolveWorkflowInputs [⟨"a", none⟩] [] = .error e :=
  (C5_workflow_input_defaults.2.2.2.2 [⟨"a", none⟩] []).mpr
    ⟨⟨"a", none⟩, List.mem_singleton_self _, rfl, rfl⟩

/-- C6: `generate_and_split_data`, `fit` and `predict` are declared cacheable
with their cache versions; dispatching a cacheable task twice with identical
resolved inputs reaches the External Task Invoker exactly once — the second
dispatch is served from the cache with the output of the first. -/
theorem C6_cache_round_trip :
    generate_and_split_dataMeta.cache = true ∧
    generate_and_split_dataMeta.cache_version = "0.1" ∧
    fitMeta.cache = true ∧ fitMeta.cache_version = "1.0" ∧
    predictMeta.cache = true ∧ predictMeta.cache_version = "1.0" ∧
    (∀ (ι ω : Type) [DecidableEq ι] (t : TaskMeta) (body : ι → ω) (inp : ι),
      t.cache = true →
      runCached t body inp [] =
        (body inp, [((t.name, t.cache_version, inp), body inp)], 1) ∧
      runCached t body inp (runCached t body inp []).2.1 =
        ((runCached t body inp []).1, (runCached t body inp []).2.1, 0)) := by
  refine ⟨rfl, rfl, rfl, rfl, rfl, rfl, ?_⟩
  intro ι ω inst t body inp hc
  constructor
  · simp [runCached, hc, cacheLookup]
  · simp [runCached, hc, cacheLookup]

/-- C6 witness: the cache round trip for `generate_and_split_data` on a
concrete body and input. -/
theorem C6_cache_round_trip_witness :
    generate_and_split_dataMeta.cache = true ∧
    (runCached generate_and_split_dataMeta (fun n : Int => n + 1) 0 [] =
      ((fun n : Int => n + 1) 0,
       [((generate_and_split_dataMeta.name, generate_and_split_dataMeta.cache_version, 0),
         (fun n : Int => n + 1) 0)], 1) ∧
     runCached generate_and_split_dataMeta (fun n : Int => n + 1) 0
        (runCached generate_and_split_dataMeta (fun n : Int => n + 1) 0 []).2.1 =
      ((runCached generate_and_split_dataMeta (fun n : Int => n + 1) 0 []).1,
       (runCached generate_and_split_dataMeta (fun n : Int => n + 1) 0 []).2.1, 0)) :=
  ⟨rfl, C6_cache_round_trip.2.2.2.2.2.2 Int Int generate_and_split_dataMeta
    (fun n => n + 1) 0 rfl⟩

/-- C7: in a linear chain where the first node fails, the second and third
terminate Skipped and the run reports exactly Failed, Skipped, Skipped with
the overall run Failed; instantiated on the
`generate_and_split_data → fit → predict` chain of
`house_price_predictor_trainer`. -/
theorem C7_failure_propagation :
    (∀ (outcome : String → Bool) (a b c : String), a ≠ b → a ≠ c → b ≠ c →
      outcome a = false →
      runSched outcome [⟨a, []⟩, ⟨b, [a]⟩, ⟨c, [b]⟩] =
        [(a, .failed), (b, .skipped), (c, .skipped)] ∧
      overallFailed (runSched outcome [⟨a, []⟩, ⟨b, [a]⟩, ⟨c, [b]⟩]) = true) ∧
    runSched (fun i => !(i == "generate_and_split_data")) houseTrainerNodes =
      [("generate_and_split_data", .failed), ("fit", .skipped), ("predict", .skipped)] ∧
    overallFailed
      (runSched (fun i => !(i == "generate_and_split_data")) houseTrainerNodes) = true := by
  refine ⟨?_, by decide, by decide⟩
  intro outcome a b c hab hac hbc houtcome
  constructor
  · simp [runSched, statusLookup, houtcome, hab, hac, hbc]
  · simp [runSched, overallFailed, statusLookup, houtcome, hab, hac, hbc]

/-- C7 witness: the chain statement applied to the house trainer node names. -/
theorem C7_failure_propagation_witness :
    runSched (fun i => !(i == "generate_and_split_data"))
        [⟨"generate_and_split_data", []⟩, ⟨"fit", ["generate_and_split_data"]⟩,
         ⟨"predict", ["fit"]⟩] =
      [("generate_and_split_data", .failed), ("fit", .skipped), ("predict", .skipped)] ∧
    overallFailed (runSched (fun i => !(i == "generate_and_split_data"))
        [⟨"generate_and_split_data", []⟩, ⟨"fit", ["generate_and_split_data"]⟩,
         ⟨"predict", ["fit"]⟩]) = true :=
  C7_failure_propagation.1 (fun i => !(i == "generate_and_split_data"))
    "generate_and_split_data" "fit" "predict"
    (by decide) (by decide) (by decide) (by decide)

/-- C8: inlining terminates — `root_level_wf` and `other_root_wf` nest to
depth 2, far below the default bound 100, and flatten to finite Graphs; every
workflow whose nesting depth is defined within the bound flattens
successfully; self-referential and mutually recursive nesting is rejected
with a `RecursionError` at build time. -/
theorem C8_inlining_terminates :
    wfNestingDepth wfRegistry root_level_wfSpec = some 2 ∧
    wfNestingDepth wfRegistry other_root_wfSpec = some 2 ∧
    inlineWf wfRegistry root_level_wfSpec = .ok
      [⟨["root-n0", "leafwf-n0"], "t1"⟩, ⟨["root-n0", "leafwf-n1"], "t1"⟩,
       ⟨["root-n1", "parent-n0"], "t1"⟩, ⟨["root-n1", "parent-n1", "leafwf-n0"], "t1"⟩,
       ⟨["root-n1", "parent-n1", "leafwf-n1"], "t1"⟩] ∧
    inlineWf wfRegistry other_root_wfSpec = .ok
      [⟨["other-root-n0", "parent-n0"], "t1"⟩,
       ⟨["other-root-n0", "parent-n1", "leafwf-n0"], "t1"⟩,
       ⟨["other-root-n0", "parent-n1", "leafwf-n1"], "t1"⟩,
       ⟨["other-root-n1", "parent-n0"], "t1"⟩,
       ⟨["other-root-n1", "parent-n1", "other-child-n0"], "t1"⟩] ∧
    (∀ (reg : List (String × WorkflowSpec)) (wf : WorkflowSpec),
      (wfNestingDepth reg wf).isSome → ∃ flat, inlineWf reg wf = .ok flat) ∧
    expandWf selfRefRegistry 100 "loop_wf" = .error "RecursionError" ∧
    expandWf mutualRefRegistry 100 "wf_a" = .error "RecursionError" := by
  refine ⟨rfl, rfl, rfl, rfl, ?_, by set_option maxRecDepth 4000 in rfl,
    by set_option maxRecDepth 4000 in rfl⟩
  intro reg wf h
  exact depthNodes_isSome_imp 100 wf.nodes h

/-- C8 witness: `root_level_wf` has a defined nesting depth and flattens. -/
theorem C8_inlining_terminates_witness :
    (wfNestingDepth wfRegistry root_level_wfSpec).isSome = true ∧
    (∃ flat, inlineWf wfRegistry root_level_wfSpec = .ok flat) :=
  ⟨rfl, C8_inlining_terminates.2.2.2.2.1 wfRegistry root_level_wfSpec rfl⟩

/-- C9: whenever `split_data` succeeds (the row count admits the 0.6/0.3/0.1
split), the three returned DataFrames partition the input rows — their row
counts sum to the input row count and their rows together are a permutation
of the input rows — and each carries exactly the seven `COLUMNS` labels with
`PRICE` first; this holds for every seed and every permutation-valued
shuffle. -/
theorem C9_split_data_partition
    (shuffle : Int → List (List Rat × List Rat) → List (List Rat × List Rat))
    (hsh : ∀ s l, List.Perm (shuffle s l) l)
    (df : DataFrame) (seed : Int) (tr v te : DataFrame)
    (h : split_data shuffle df seed SPLIT_RATIOS = some (tr, v, te)) :
    tr.rows.length + v.rows.length + te.rows.length = df.rows.length ∧
    List.Perm (tr.rows ++ v.rows ++ te.rows) df.rows ∧
    tr.cols = COLUMNS ∧ v.cols = COLUMNS ∧ te.cols = COLUMNS ∧
    COLUMNS = ["PRICE", "YEAR_BUILT", "SQUARE_FEET", "NUM_BEDROOMS",
      "NUM_BATHROOMS", "LOT_ACRES", "GARAGE_SPACES"] := by
  simp only [split_data] at h
  split_ifs at h with h1 h2
  · simp only [Option.some.injEq, Prod.mk.injEq] at h
    obtain ⟨htr, hv, hte⟩ := h
    subst htr hv hte
    set xy := df.rows.map (fun r => (r.take 1, r.drop 1)) with hxy
    set nt := ratCeilNat (SPLIT_RATIOS.getD 2 0) df.rows.length with hnt
    set sh1 := shuffle seed xy with hsh1
    set rem := sh1.drop nt with hrem
    set nv := ratCeilNat (SPLIT_RATIOS.getD 1 0 / (1 - SPLIT_RATIOS.getD 2 0))
      rem.length with hnv
    set sh2 := shuffle seed rem with hsh2
    have comb : ∀ (l : List (List Rat × List Rat)),
        (l.map (fun p => p.1 ++ p.2)) = l.map (fun p => p.1 ++ p.2) := fun _ => rfl
    have p1 : List.Perm (sh2.drop nv ++ sh2.take nv) sh2 := by
      have := @List.perm_append_comm _ (sh2.drop nv) (sh2.take nv)
      rw [List.take_append_drop] at this
      exact this
    have p3 : List.Perm (sh2.drop nv ++ sh2.take nv) rem := p1.trans (hsh seed rem)
    have p5 : List.Perm (rem ++ sh1.take nt) xy := by
      have hc : List.Perm (sh1.drop nt ++ sh1.take nt) sh1 := by
        have := @List.perm_append_comm _ (sh1.drop nt) (sh1.take nt)
        rw [List.take_append_drop] at this
        exact this
      exact hc.trans (hsh seed xy)
    have p6 : List.Perm ((sh2.drop nv ++ sh2.take nv) ++ sh1.take nt) xy :=
      (p3.append_right (sh1.take nt)).trans p5
    have pmap : List.Perm
        (((sh2.drop nv ++ sh2.take nv) ++ sh1.take nt).map (fun p => p.1 ++ p.2))
        (xy.map (fun p => p.1 ++ p.2)) := p6.map _
    have hxyid : xy.map (fun p : List Rat × List Rat => p.1 ++ p.2) = df.rows := by
      rw [hxy, List.map_map]
      simp only [Function.comp_def, List.take_append_drop]
      exact List.map_id _
    have hperm : List.Perm
        (((sh2.drop nv).map (fun p => p.1 ++ p.2) ++
          (sh2.take nv).map (fun p => p.1 ++ p.2)) ++
          (sh1.take nt).map (fun p => p.1 ++ p.2)) df.rows := by
      rw [← List.map_append, ← List.map_append]
      rw [hxyid] at pmap
      exact pmap
    refine ⟨?_, hperm, rfl, rfl, rfl, rfl⟩
    have hlen := hperm.length_eq
    simp only [List.length_append] at hlen
    simp only [List.length_map] at hlen ⊢
    exact hlen

unseal Rat.add Rat.mul Rat.sub Rat.inv in
/-- C9 witness: the partition property on a concrete ten-row DataFrame with
the rotation shuffle. -/
theorem C9_split_data_partition_witness :
    split_data rotShuffle ⟨COLUMNS, List.replicate 10 [1, 1, 1, 1, 1, 1, 1]⟩ 7
        SPLIT_RATIOS =
      some (⟨COLUMNS, List.replicate 6 [1, 1, 1, 1, 1, 1, 1]⟩,
            ⟨COLUMNS, List.replicate 3 [1, 1, 1, 1, 1, 1, 1]⟩,
            ⟨COLUMNS, List.replicate 1 [1, 1, 1, 1, 1, 1, 1]⟩) ∧
    ((List.replicate 6 [(1 : Rat), 1, 1, 1, 1, 1, 1]).length +
        (List.replicate 3 [(1 : Rat), 1, 1, 1, 1, 1, 1]).length +
        (List.replicate 1 [(1 : Rat), 1, 1, 1, 1, 1, 1]).length =
      (List.replicate 10 [(1 : Rat), 1, 1, 1, 1, 1, 1]).length) ∧
    List.Perm (List.replicate 6 [(1 : Rat), 1, 1, 1, 1, 1, 1] ++
        List.replicate 3 [(1 : Rat), 1, 1, 1, 1, 1, 1] ++
        List.replicate 1 [(1 : Rat), 1, 1, 1, 1, 1, 1])
      (List.replicate 10 [(1 : Rat), 1, 1, 1, 1, 1, 1]) := by
  have h : split_data rotShuffle ⟨COLUMNS, List.replicate 10 [1, 1, 1, 1, 1, 1, 1]⟩ 7
      SPLIT_RATIOS =
    some (⟨COLUMNS, List.replicate 6 [1, 1, 1, 1, 1, 1, 1]⟩,
          ⟨COLUMNS, List.replicate 3 [1, 1, 1, 1, 1, 1, 1]⟩,
          ⟨COLUMNS, List.replicate 1 [1, 1, 1, 1, 1, 1, 1]⟩) := rfl
  have hres := C9_split_data_partition rotShuffle
    (fun s l => List.rotate_perm l s.toNat)
    ⟨COLUMNS, List.replicate 10 [1, 1, 1, 1, 1, 1, 1]⟩ 7 _ _ _ h
  exact ⟨h, hres.1, hres.2.1⟩

/-- C10: `feast_workflow.py` never defines or imports `_FeatureStore` (used in
four task signatures), `FeatureStoreConfig` or `create_node`, so loading the
module raises a `NameError` (at the first task signature mentioning
`_FeatureStore`), and even in an environment holding every name the module
binds, calling `feast_workflow` raises a `NameError` instead of returning the
promised prediction list. -/
theorem C10_feast_workflow_name_errors :
    "_FeatureStore" ∉ feastModuleBinds ∧
    "FeatureStoreConfig" ∉ feastModuleBinds ∧
    "create_node" ∉ feastModuleBinds ∧
    (feastModuleSteps.filter (fun s => s.refs.contains "_FeatureStore")).length = 4 ∧
    loadFeastModule = .error "NameError: name _FeatureStore is not defined" ∧
    callFeastWorkflow feastModuleBinds =
      .error "NameError: name FeatureStoreConfig is not defined" :=
  ⟨by decide, by decide, by decide, by decide, rfl, rfl⟩

end Flytesnacks
